import Mathlib

/-!
Verification development for the Twitter profile scraper (`src/main.py`).

The scraper drives a browser page: it navigates to a profile, scrolls to
trigger lazy loading, enumerates post elements and extracts one record per
post.  The browser is modelled as explicit input data: a `NavWorld` gives the
outcomes of the navigation steps, a `PageModel` gives the page height and the
rendered post count as functions of the number of scrolls performed, a
`PostElem` gives the per-field lookup outcomes of one rendered post, and a
`FaultPoint` injects an unexpected exception at one of the places the
top-level `try` of `scrape_profile` guards.  All definitions are translated
directly from `main.py`; python string `strip` is `String.trim`, python
`datetime.now()` becomes an explicit `time` input, and machine-level
concerns (the real DOM, network) stay behind the outcome data.

Regex note: the command pattern `analyze twitter account (\w+) get (\d+)
posts?` is matched by `re.match`, anchored at the start only.  Since `\w+`
and `\d+` are greedy runs ended by the non-word, non-digit character that
follows them in the pattern (a space), the match is equivalent to the
longest-run scanner `parseCommandChars` below.  `\w` and `\d` are modelled
over the ASCII range; every input appearing in the claims is ASCII.
-/

namespace Scraper

/-! ## Data model -/

/-- One extracted post, mirroring the dict built by `_process_post`:
position, content, three metric strings, and the extraction timestamp. -/
structure PostRecord where
  position : Nat
  content : String
  likes : String
  retweets : String
  replies : String
  timestamp : String
deriving DecidableEq, Repr

/-- The result dict assembled by `scrape_profile`. -/
structure ScrapeResult where
  username : String
  requested_posts : Nat
  scraped_posts : Nat
  posts : List PostRecord
  errors : List String
deriving DecidableEq, Repr

/-- Outcome of `page.goto` inside `_navigate_to_profile`: success, a
playwright `TimeoutError`, or some other exception with a message. -/
inductive GotoOutcome where
  | success
  | timeout
  | fault (msg : String)
deriving DecidableEq, Repr

/-- Outcome of `page.wait_for_selector` for the post container: success, a
playwright `TimeoutError`, or some other exception with a message. -/
inductive WaitOutcome where
  | success
  | timeout
  | fault (msg : String)
deriving DecidableEq, Repr

/-- Inputs consumed by `_navigate_to_profile`: the goto outcome, the text of
the error banner if `page.query_selector` finds one, and the outcome of the
wait for the first post container. -/
structure NavWorld where
  goto : GotoOutcome
  banner : Option String
  waitPosts : WaitOutcome
deriving DecidableEq, Repr

/-- The page as seen by `_auto_scroll`: rendered post count and total
scrollable height as functions of the number of scrolls performed so far
(`height 0` is the height before any scroll; the code never reads it). -/
structure PageModel where
  postCount : Nat → Nat
  height : Nat → Nat

/-- One rendered post element as seen by `_process_post`: the raw text each
per-field lookup would return (`none` when the lookup times out or faults),
plus a flag for an unexpected exception escaping the per-field guards. -/
structure PostElem where
  content : Option String
  like : Option String
  retweet : Option String
  reply : Option String
  processFault : Bool
deriving DecidableEq, Repr

/-- Where, if anywhere, an unexpected exception reaches the top-level
`except Exception` of `scrape_profile`: during `_auto_scroll`, during the
`query_selector_all` enumeration, or while processing the i-th post
(1-based, so the first `i - 1` posts were already handled). -/
inductive FaultPoint where
  | noFault
  | duringScroll (msg : String)
  | duringQuery (msg : String)
  | duringPost (i : Nat) (msg : String)
deriving DecidableEq, Repr

/-- Everything one `scrape_profile` call observes from the browser. -/
structure World where
  nav : NavWorld
  page : PageModel
  posts : List PostElem
  time : String
  fault : FaultPoint

/-! ## Configuration (`TwitterScraper.__init__`) -/

/-- Value of `config.scroll_attempts`. -/
def scrollAttempts : Nat := 5

/-! ## Post extraction (`_get_element_text`, `_get_metric`, `_process_post`) -/

/-- Python `str.strip()` on character lists: drop whitespace from both
ends (ASCII whitespace; every input in the claims is ASCII). -/
def stripChars (cs : List Char) : List Char :=
  ((cs.dropWhile Char.isWhitespace).reverse.dropWhile Char.isWhitespace).reverse

/-- Python `str.strip()`. -/
def pyStrip (s : String) : String :=
  String.mk (stripChars s.toList)

/-- Translation of `_get_element_text`: on any lookup fault return the
sentinel, otherwise the trimmed text. -/
def getElementText (lookup : Option String) : String :=
  match lookup with
  | none => "Content unavailable"
  | some t => pyStrip t

/-- Translation of `_get_metric`: on any lookup fault return `"N/A"`;
otherwise `text.strip() or '0'`, i.e. the trimmed text with the empty
string replaced by `"0"`. -/
def getMetric (lookup : Option String) : String :=
  match lookup with
  | none => "N/A"
  | some t => if pyStrip t = "" then "0" else pyStrip t

/-- Translation of `_process_post`: build the record from the four guarded
field extractions, stamping the current time; an unexpected exception makes
the whole post yield `none`. -/
def processPost (post : PostElem) (position : Nat) (time : String) :
    Option PostRecord :=
  if post.processFault then none
  else
    some
      { position := position
        content := getElementText post.content
        likes := getMetric post.like
        retweets := getMetric post.retweet
        replies := getMetric post.reply
        timestamp := time }

/-- Error message appended by `scrape_profile` when `_process_post`
returns nothing for the post at 1-based index `idx`. -/
def failMsg (idx : Nat) : String :=
  "Failed to process post " ++ toString idx

/-- The extraction loop of `scrape_profile` (lines 77-82): walk the
truncated element list with 1-based indices, collecting records and
failure messages in encounter order. -/
def processPosts : List PostElem → Nat → String → List PostRecord × List String
  | [], _, _ => ([], [])
  | p :: rest, idx, time =>
    let r := processPosts rest (idx + 1) time
    match processPost p idx time with
    | some pr => (pr :: r.1, r.2)
    | none => (r.1, failMsg idx :: r.2)

/-! ## Navigation (`_navigate_to_profile`) -/

/-- Translation of `_navigate_to_profile`.  The `try` body runs goto, the
banner query and the wait for the first post container; `except
TimeoutError` catches a playwright timeout raised by either goto or the
wait, and the generic `except` turns any other exception into a
`Navigation error:` message.  A found banner returns at most the first 200
characters of its text. -/
def navigateToProfile (w : NavWorld) : Option String :=
  match w.goto with
  | .timeout => some "Timeout waiting for profile to load"
  | .fault msg => some ("Navigation error: " ++ msg)
  | .success =>
    match w.banner with
    | some t => some ("Profile error: " ++ t.take 200)
    | none =>
      match w.waitPosts with
      | .success => none
      | .timeout => some "Timeout waiting for profile to load"
      | .fault msg => some ("Navigation error: " ++ msg)

/-! ## Auto-scroll (`_auto_scroll`) -/

/-- Why the scroll loop stopped: target count reached, page height equal to
the previous measurement, or the attempt ceiling. -/
inductive ScrollStop where
  | targetReached
  | heightUnchanged
  | ceiling
deriving DecidableEq, Repr

/-- The `while scroll_attempt < scroll_attempts` loop of `_auto_scroll`,
with `fuel = scroll_attempts - scroll_attempt` so the recursion is
structural.  `scrolls` counts the scroll-and-measure cycles performed;
`lastHeight` starts at 0 as in the code.  Each iteration first re-queries
the post count (at the current scroll state), stops if the target is met,
otherwise scrolls, waits, measures the new height and stops if it equals
the previous measurement.  Returns the cycle count and the stop reason. -/
def autoScrollGo (pm : PageModel) (targetCount : Nat) :
    Nat → Nat → Nat → Nat × ScrollStop
  | 0, _, scrolls => (scrolls, .ceiling)
  | fuel + 1, lastHeight, scrolls =>
    if pm.postCount scrolls ≥ targetCount then (scrolls, .targetReached)
    else if pm.height (scrolls + 1) = lastHeight then
      (scrolls + 1, .heightUnchanged)
    else autoScrollGo pm targetCount fuel (pm.height (scrolls + 1)) (scrolls + 1)

/-- Translation of `_auto_scroll`: run the loop with the configured attempt
ceiling, initial `last_height = 0` and no scrolls performed. -/
def autoScroll (pm : PageModel) (targetCount : Nat) : Nat × ScrollStop :=
  autoScrollGo pm targetCount scrollAttempts 0 0

/-! ## Orchestrator (`scrape_profile`) -/

/-- Message recorded by the top-level `except Exception` handler. -/
def runtimeMsg (msg : String) : String :=
  "Runtime error: " ++ msg

/-- Translation of `scrape_profile`.  The second component of the result
counts `browser.close()` calls on the taken path: the `finally` block runs
on the early navigation-error return, on the normal return, and on the
return from the `except` handler alike.  The scroll side effect is already
reflected in the world (the page model and the element list sampled at
extraction time), so the orchestrator sequences `autoScroll` for its cycle
consumption and then reads `w.posts` as `query_selector_all` does. -/
def scrapeProfile (username : String) (postCount : Nat) (w : World) :
    ScrapeResult × Nat :=
  match navigateToProfile w.nav with
  | some navError =>
    (⟨username, postCount, 0, [], [navError]⟩, 1)
  | none =>
    match w.fault with
    | .duringScroll msg =>
      (⟨username, postCount, 0, [], [runtimeMsg msg]⟩, 1)
    | .duringQuery msg =>
      let _ := autoScroll w.page postCount
      (⟨username, postCount, 0, [], [runtimeMsg msg]⟩, 1)
    | .duringPost i msg =>
      let _ := autoScroll w.page postCount
      let truncated := w.posts.take postCount
      let pe := processPosts (truncated.take (i - 1)) 1 w.time
      (⟨username, postCount, truncated.length, pe.1,
        pe.2 ++ [runtimeMsg msg]⟩, 1)
    | .noFault =>
      let _ := autoScroll w.page postCount
      let truncated := w.posts.take postCount
      let pe := processPosts truncated 1 w.time
      (⟨username, postCount, truncated.length, pe.1, pe.2⟩, 1)

/-! ## Command-line parsing (`__main__`) -/

/-- Python `\w` over the ASCII range. -/
def isWordChar (c : Char) : Bool :=
  c.isAlphanum || c == '_'

/-- Value of `int` on a digit string, via the usual left fold. -/
def natOfDigits (ds : List Char) : Nat :=
  ds.foldl (fun n c => n * 10 + (c.toNat - 48)) 0

/-- Consume a required literal piece of the pattern: succeed with the rest
of the input exactly when the piece is a prefix of it. -/
def chomp (pre cs : List Char) : Option (List Char) :=
  if pre.isPrefixOf cs then some (cs.drop pre.length) else none

/-- Consume a nonempty greedy run of characters satisfying `p` (a `\w+` or
`\d+` group), returning the run and the rest of the input. -/
def grabRun (p : Char → Bool) (cs : List Char) :
    Option (List Char × List Char) :=
  if (cs.takeWhile p).isEmpty then none
  else some (cs.takeWhile p, cs.drop (cs.takeWhile p).length)

/-- The `re.match` of the command pattern, on character lists: the literal
prefix, a nonempty greedy word-character run (group 1), the literal
`" get "`, a nonempty greedy digit run (group 2), then `" post"`; the
trailing `s?` and any further text are unconstrained because `re.match`
only anchors the start.  The greedy runs need no backtracking: each is
followed in the pattern by a space, which no word or digit character can
match, so the regex run is the maximal run. -/
def parseCommandChars (cs : List Char) : Option (List Char × List Char) :=
  match chomp "analyze twitter account ".toList cs with
  | none => none
  | some r1 =>
    match grabRun isWordChar r1 with
    | none => none
    | some (w, r2) =>
      match chomp " get ".toList r2 with
      | none => none
      | some r3 =>
        match grabRun Char.isDigit r3 with
        | none => none
        | some (d, r4) =>
          match chomp " post".toList r4 with
          | none => none
          | some _ => some (w, d)

/-- Command parsing as `__main__` uses it: the username group and the count
group converted by `int`. -/
def parseCommand (s : String) : Option (String × Nat) :=
  match parseCommandChars s.toList with
  | some (w, d) => some (String.mk w, natOfDigits d)
  | none => none

/-- Observable outcome of the `__main__` block: what is printed, the process
exit status, and whether a browser was launched. -/
structure MainOutcome where
  output : String
  exitCode : Nat
  browserLaunched : Bool
deriving DecidableEq, Repr

/-- Recognizer for the per-post failure messages of `scrape_profile`, used
to count them in the result's error list. -/
def isFailMsg (e : String) : Bool :=
  "Failed to process post".toList.isPrefixOf e.toList

/-- One `PostRecord` with the extraction timestamp forgotten, for comparing
two extractions of the same element. -/
structure PostView where
  position : Nat
  content : String
  likes : String
  retweets : String
  replies : String
deriving DecidableEq, Repr

/-- Forget the timestamp of a record. -/
def stripStamp (r : PostRecord) : PostView :=
  ⟨r.position, r.content, r.likes, r.retweets, r.replies⟩

/-- The `json.dumps` of the invalid-command object. -/
def invalidCommandOutput : String :=
  "\x7b\"error\": \"Invalid command format\"\x7d"

/-- Translation of the `__main__` block: a non-matching command prints the
invalid-command JSON and exits with status 1 before any scraper is built; a
matching command runs the scrape (which launches the browser) and prints
the rendered result. -/
def mainRun (cmd : String) (render : ScrapeResult → String)
    (runScrape : String → Nat → ScrapeResult) : MainOutcome :=
  match parseCommand cmd with
  | none => ⟨invalidCommandOutput, 1, false⟩
  | some (u, n) => ⟨render (runScrape u n), 0, true⟩

/-! ## Helper lemmas -/

set_option maxRecDepth 100000

theorem string_toList_append (a b : String) :
    (a ++ b).toList = a.toList ++ b.toList := by
  cases a
  cases b
  rfl

theorem nil_isPrefixOf (l : List Char) : List.isPrefixOf [] l = true := by
  cases l <;> rfl

theorem isPrefixOf_append_of_isPrefixOf {p l t : List Char}
    (h : p.isPrefixOf l = true) : p.isPrefixOf (l ++ t) = true := by
  induction p generalizing l with
  | nil => exact nil_isPrefixOf _
  | cons a as ih =>
    cases l with
    | nil => simp [List.isPrefixOf] at h
    | cons b bs =>
      simp only [List.isPrefixOf, List.cons_append, Bool.and_eq_true] at h ⊢
      exact ⟨h.1, ih h.2⟩

theorem isPrefixOf_append_left (l t : List Char) :
    l.isPrefixOf (l ++ t) = true := by
  induction l with
  | nil => exact nil_isPrefixOf _
  | cons a as ih =>
    simp only [List.isPrefixOf, List.cons_append, Bool.and_eq_true]
    exact ⟨by simp, ih⟩

theorem drop_length_append (l t : List Char) :
    (l ++ t).drop l.length = t := by
  induction l with
  | nil => rfl
  | cons a as ih => simp [ih]

theorem takeWhile_append_stops {p : Char → Bool} (w : List Char) (x : Char)
    (rest : List Char) (hw : ∀ c ∈ w, p c = true) (hx : p x = false) :
    (w ++ x :: rest).takeWhile p = w := by
  induction w with
  | nil => simp [List.takeWhile_cons, hx]
  | cons a as ih =>
    have ha : p a = true := hw a (by simp)
    simp only [List.cons_append, List.takeWhile_cons, ha, if_true]
    rw [ih fun c hc => hw c (by simp [hc])]

theorem isFailMsg_failMsg (idx : Nat) : isFailMsg (failMsg idx) = true := by
  unfold isFailMsg failMsg
  rw [string_toList_append]
  exact isPrefixOf_append_of_isPrefixOf (by decide)

theorem processPosts_length (l : List PostElem) (idx : Nat) (time : String) :
    (processPosts l idx time).1.length + (processPosts l idx time).2.length
      = l.length := by
  induction l generalizing idx with
  | nil => rfl
  | cons p rest ih =>
    have h' := ih (idx + 1)
    unfold processPosts
    cases h : processPost p idx time <;> simp [h] <;> omega

theorem processPosts_errors_failMsgs (l : List PostElem) (idx : Nat)
    (time : String) : ∀ e ∈ (processPosts l idx time).2, isFailMsg e = true := by
  induction l generalizing idx with
  | nil => intro e he; simp [processPosts] at he
  | cons p rest ih =>
    intro e he
    unfold processPosts at he
    cases h : processPost p idx time with
    | some pr =>
      rw [h] at he
      exact ih (idx + 1) e he
    | none =>
      rw [h] at he
      simp only [List.mem_cons] at he
      rcases he with he | he
      · rw [he]; exact isFailMsg_failMsg idx
      · exact ih (idx + 1) e he

/-! ## Claim theorems -/

/-- Claim C2 (counterexample): the two timeout situations are NOT
distinguishable.  A playwright `TimeoutError` raised by `page.goto` and one
raised by `page.wait_for_selector` for the first post container are caught
by the same `except TimeoutError` clause of `_navigate_to_profile`, so both
yield the identical error value `"Timeout waiting for profile to load"`;
the wait timeout does not carry the underlying fault description. -/
theorem C2_timeouts_indistinguishable :
    navigateToProfile ⟨.timeout, none, .success⟩
        = some "Timeout waiting for profile to load" ∧
    navigateToProfile ⟨.success, none, .timeout⟩
        = some "Timeout waiting for profile to load" ∧
    navigateToProfile ⟨.timeout, none, .success⟩
        = navigateToProfile ⟨.success, none, .timeout⟩ :=
  ⟨rfl, rfl, rfl⟩

/-- Claim C2 (amended): a timeout of the navigation request and a timeout
while waiting for the first post-container element both yield the same
`NavigationTimeout` value `"Timeout waiting for profile to load"`; only a
non-timeout fault (during navigation or during the wait) yields the
`NavigationError` value carrying the underlying fault description. -/
theorem C2_amended_error_kinds (b : Option String) (p : WaitOutcome)
    (msg : String) :
    navigateToProfile ⟨.timeout, b, p⟩
        = some "Timeout waiting for profile to load" ∧
    navigateToProfile ⟨.success, none, .timeout⟩
        = some "Timeout waiting for profile to load" ∧
    navigateToProfile ⟨.success, none, .fault msg⟩
        = some ("Navigation error: " ++ msg) ∧
    navigateToProfile ⟨.fault msg, b, p⟩
        = some ("Navigation error: " ++ msg) :=
  ⟨rfl, rfl, rfl, rfl⟩

/-- Claim C4: every field of a produced record is a real string.  When a
post element raises no unexpected fault, `_process_post` yields a record
whose fields come from the guarded per-field extractors; a failed content
lookup gives exactly `"Content unavailable"`, a failed metric lookup gives
exactly `"N/A"`, and a successful metric lookup whose trimmed text is empty
gives exactly `"0"`. -/
theorem C4_field_sentinels (post : PostElem) (position : Nat) (time : String)
    (t : String) (h : post.processFault = false) :
    processPost post position time =
      some ⟨position, getElementText post.content, getMetric post.like,
        getMetric post.retweet, getMetric post.reply, time⟩ ∧
    getElementText none = "Content unavailable" ∧
    getMetric none = "N/A" ∧
    (pyStrip t = "" → getMetric (some t) = "0") := by
  refine ⟨?_, rfl, rfl, ?_⟩
  · unfold processPost
    rw [h]
    rfl
  · intro ht
    show (if pyStrip t = "" then "0" else pyStrip t) = "0"
    rw [if_pos ht]

/-- Witness for C4 at a concrete element: content lookup failed, like
metric read `" 12 "`, retweet metric read an empty string, reply lookup
failed. -/
theorem C4_field_sentinels_witness :
    processPost ⟨none, some " 12 ", some "", none, false⟩ 1 "t0" =
      some ⟨1, "Content unavailable", "12", "0", "N/A", "t0"⟩ ∧
    getMetric (some " ") = "0" := by
  have h := C4_field_sentinels ⟨none, some " 12 ", some "", none, false⟩ 1 "t0" " " rfl
  refine ⟨?_, h.2.2.2 (by decide)⟩
  rw [h.1]
  rfl

/-- Claim C5: on every exit path of `scrape_profile` — the early
navigation-error return, the normal return, and the return from the
top-level `except Exception` handler — the `finally` block closes the
browser exactly once. -/
theorem C5_browser_closed_once (username : String) (postCount : Nat)
    (w : World) : (scrapeProfile username postCount w).2 = 1 := by
  unfold scrapeProfile
  cases h : navigateToProfile w.nav with
  | some e => rfl
  | none => cases hf : w.fault <;> rfl

/-- Claim C8: the extractor is deterministic in the rendered state; two
runs of `_process_post` on the same element differ at most in the
timestamp, so the records agree on position, content and all three
metrics. -/
theorem C8_extractor_idempotent (post : PostElem) (position : Nat)
    (t1 t2 : String) :
    (processPost post position t1).map stripStamp
      = (processPost post position t2).map stripStamp := by
  cases h : post.processFault <;> simp [processPost, h, stripStamp]

/-- Claim C6: a command string the pattern does not match makes `__main__`
print exactly the invalid-command JSON object, exit with status 1, and
launch no browser. -/
theorem C6_invalid_command (cmd : String) (render : ScrapeResult → String)
    (runScrape : String → Nat → ScrapeResult)
    (h : parseCommand cmd = none) :
    mainRun cmd render runScrape =
      ⟨"\x7b\"error\": \"Invalid command format\"\x7d", 1, false⟩ := by
  unfold mainRun
  rw [h]
  rfl

/-- Witness for C6 on the non-matching command of the spec example. -/
theorem C6_invalid_command_witness :
    mainRun "show me stuff" (fun _ => "") (fun u n => ⟨u, n, 0, [], []⟩) =
      ⟨"\x7b\"error\": \"Invalid command format\"\x7d", 1, false⟩ :=
  C6_invalid_command "show me stuff" _ _ (by decide)

/-- Claim C7: when navigation succeeds and an error banner is found, the
scrape returns at once with the single error `"Profile error: "` followed
by at most the first 200 characters of the banner text, and no posts. -/
theorem C7_profile_error_banner (username : String) (postCount : Nat)
    (w : World) (t : String) (hgoto : w.nav.goto = .success)
    (hbanner : w.nav.banner = some t) :
    (scrapeProfile username postCount w).1 =
      ⟨username, postCount, 0, [], ["Profile error: " ++ t.take 200]⟩ := by
  obtain ⟨⟨g, b, wp⟩, page, posts, time, fault⟩ := w
  simp only at hgoto hbanner
  cases hgoto
  cases hbanner
  rfl

/-- Witness for C7 on the spec example banner. -/
theorem C7_profile_error_banner_witness :
    (scrapeProfile "ghost" 5
        ⟨⟨.success, some "This account doesn\x27t exist", .success⟩,
          ⟨fun _ => 0, fun _ => 0⟩, [], "t0", .noFault⟩).1 =
      ⟨"ghost", 5, 0, [], ["Profile error: This account doesn\x27t exist"]⟩ := by
  have h := C7_profile_error_banner "ghost" 5
    ⟨⟨.success, some "This account doesn\x27t exist", .success⟩,
      ⟨fun _ => 0, fun _ => 0⟩, [], "t0", .noFault⟩
    "This account doesn\x27t exist" rfl rfl
  rw [h]
  rfl

/-- Claim C1: on the normal path (navigation succeeded, no unexpected
fault), the achieved count equals `min` of the requested count and the
number of elements rendered at extraction time, and the number of records
plus the number of per-post failure messages equals the achieved count. -/
theorem C1_achieved_count (username : String) (postCount : Nat) (w : World)
    (hnav : navigateToProfile w.nav = none)
    (hfault : w.fault = FaultPoint.noFault) :
    (scrapeProfile username postCount w).1.scraped_posts
        = min postCount w.posts.length ∧
    (scrapeProfile username postCount w).1.posts.length
        + (scrapeProfile username postCount w).1.errors.countP isFailMsg
        = (scrapeProfile username postCount w).1.scraped_posts := by
  have hres : (scrapeProfile username postCount w).1 =
      ⟨username, postCount, (w.posts.take postCount).length,
        (processPosts (w.posts.take postCount) 1 w.time).1,
        (processPosts (w.posts.take postCount) 1 w.time).2⟩ := by
    unfold scrapeProfile
    rw [hnav, hfault]
  rw [hres]
  refine ⟨by simp, ?_⟩
  have hone : (processPosts (w.posts.take postCount) 1 w.time).2.countP isFailMsg
      = (processPosts (w.posts.take postCount) 1 w.time).2.length :=
    List.countP_eq_length.mpr (processPosts_errors_failMsgs _ 1 w.time)
  show (processPosts (w.posts.take postCount) 1 w.time).1.length
      + (processPosts (w.posts.take postCount) 1 w.time).2.countP isFailMsg
      = (w.posts.take postCount).length
  rw [hone]
  exact processPosts_length _ 1 w.time

/-- Witness for C1: three rendered elements, two requested, the second one
failing extraction; one record plus one failure message equals the achieved
count 2. -/
theorem C1_achieved_count_witness :
    (scrapeProfile "alice" 2
        ⟨⟨.success, none, .success⟩, ⟨fun _ => 0, fun _ => 100⟩,
          [⟨some "hello", some "1", some "2", some "3", false⟩,
            ⟨none, none, none, none, true⟩,
            ⟨some "bye", some "4", some "5", some "6", false⟩],
          "t0", .noFault⟩).1.scraped_posts = min 2 3 ∧
    (scrapeProfile "alice" 2
        ⟨⟨.success, none, .success⟩, ⟨fun _ => 0, fun _ => 100⟩,
          [⟨some "hello", some "1", some "2", some "3", false⟩,
            ⟨none, none, none, none, true⟩,
            ⟨some "bye", some "4", some "5", some "6", false⟩],
          "t0", .noFault⟩).1.posts.length
      + (scrapeProfile "alice" 2
        ⟨⟨.success, none, .success⟩, ⟨fun _ => 0, fun _ => 100⟩,
          [⟨some "hello", some "1", some "2", some "3", false⟩,
            ⟨none, none, none, none, true⟩,
            ⟨some "bye", some "4", some "5", some "6", false⟩],
          "t0", .noFault⟩).1.errors.countP isFailMsg
      = (scrapeProfile "alice" 2
        ⟨⟨.success, none, .success⟩, ⟨fun _ => 0, fun _ => 100⟩,
          [⟨some "hello", some "1", some "2", some "3", false⟩,
            ⟨none, none, none, none, true⟩,
            ⟨some "bye", some "4", some "5", some "6", false⟩],
          "t0", .noFault⟩).1.scraped_posts :=
  C1_achieved_count "alice" 2
    ⟨⟨.success, none, .success⟩, ⟨fun _ => 0, fun _ => 100⟩,
      [⟨some "hello", some "1", some "2", some "3", false⟩,
        ⟨none, none, none, none, true⟩,
        ⟨some "bye", some "4", some "5", some "6", false⟩],
      "t0", .noFault⟩ rfl rfl

/-- Claim C3 (counterexample): a fully loaded static page — height
constantly 100, rendered post count constantly 0, target 1 — has a
scrollable height that stops changing after k = 0 scrolls, yet the
scroller performs 2 scroll-and-measure cycles, not k + 1 = 1, because
`last_height` is initialized to 0 rather than to the measured height, so
the first measurement never looks unchanged. -/
theorem C3_static_page_two_cycles :
    autoScroll ⟨fun _ => 0, fun _ => 100⟩ 1 = (2, ScrollStop.heightUnchanged) ∧
    (autoScroll ⟨fun _ => 0, fun _ => 100⟩ 1).1 ≠ 0 + 1 :=
  ⟨rfl, by decide⟩

theorem autoScrollGo_reaches (pm : PageModel) (target k : Nat) (hk5 : k < 5)
    (hchg : ∀ i, 1 ≤ i → i < k → pm.height (i + 1) ≠ pm.height i)
    (hstop : pm.height (k + 1) = pm.height k)
    (hcnt : ∀ s, s ≤ k → pm.postCount s < target) :
    ∀ d a, 1 ≤ a → a + d = k →
      autoScrollGo pm target (5 - a) (pm.height a) a
        = (k + 1, ScrollStop.heightUnchanged) := by
  intro d
  induction d with
  | zero =>
    intro a ha hak
    have hak' : a = k := by omega
    subst hak'
    have h5 : 5 - a = (4 - a) + 1 := by omega
    rw [h5]
    simp only [autoScrollGo]
    rw [if_neg (by have := hcnt a (by omega); omega)]
    rw [if_pos hstop]
  | succ d ih =>
    intro a ha hak
    have halt : a < k := by omega
    have h5 : 5 - a = (4 - a) + 1 := by omega
    rw [h5]
    simp only [autoScrollGo]
    rw [if_neg (by have := hcnt a (by omega); omega)]
    rw [if_neg (hchg a ha halt)]
    rw [show 4 - a = 5 - (a + 1) by omega]
    exact ih (a + 1) (by omega) (by omega)

/-- Claim C3 (amended): the k+1-cycle termination holds once the page
actually changed height at least once, i.e. for 1 ≤ k < 5, with the
measured heights nonzero (so the first measurement differs from the
initial `last_height = 0` baseline): if the height changes on each of the
first k scrolls and the k+1-st measurement repeats the k-th, while the
rendered post count stays below the target, the scroller performs exactly
k + 1 scroll-and-measure cycles and stops on the height-unchanged
condition.  For k = 0 the code instead takes 2 cycles
(`C3_static_page_two_cycles`). -/
theorem C3_amended_scroll_termination (pm : PageModel) (target k : Nat)
    (hk1 : 1 ≤ k) (hk5 : k < 5) (hpos : pm.height 1 ≠ 0)
    (hchg : ∀ i, 1 ≤ i → i < k → pm.height (i + 1) ≠ pm.height i)
    (hstop : pm.height (k + 1) = pm.height k)
    (hcnt : ∀ s, s ≤ k → pm.postCount s < target) :
    autoScroll pm target = (k + 1, ScrollStop.heightUnchanged) := by
  unfold autoScroll scrollAttempts
  show autoScrollGo pm target (4 + 1) 0 0 = _
  simp only [autoScrollGo, Nat.zero_add]
  rw [if_neg (by have := hcnt 0 (by omega); omega)]
  rw [if_neg hpos]
  show autoScrollGo pm target (5 - 1) (pm.height 1) 1 = _
  exact autoScrollGo_reaches pm target k hk5 hchg hstop hcnt (k - 1) 1
    (by omega) (by omega)

/-- Witness for C3 (amended) with k = 2: heights 20, 30, 30, ... after
scrolls 1, 2, 3, ..., post count always 0, target 1: exactly 3 cycles,
stopping on the height-unchanged condition. -/
theorem C3_amended_scroll_termination_witness :
    autoScroll ⟨fun _ => 0, fun s => min (s + 1) 3 * 10⟩ 1
      = (3, ScrollStop.heightUnchanged) :=
  C3_amended_scroll_termination ⟨fun _ => 0, fun s => min (s + 1) 3 * 10⟩ 1 2
    (by omega) (by omega) (by decide)
    (by
      intro i h1 h2
      have h3 : i = 1 := by omega
      subst h3
      decide)
    (by decide)
    (fun s _ => Nat.zero_lt_one)

theorem chomp_append (pre t : List Char) : chomp pre (pre ++ t) = some t := by
  unfold chomp
  rw [if_pos (isPrefixOf_append_left pre t), drop_length_append]

theorem grabRun_append (p : Char → Bool) (run : List Char) (x : Char)
    (t : List Char) (hrun : run ≠ []) (hall : ∀ c ∈ run, p c = true)
    (hx : p x = false) : grabRun p (run ++ x :: t) = some (run, x :: t) := by
  unfold grabRun
  rw [takeWhile_append_stops run x t hall hx, drop_length_append]
  cases run with
  | nil => exact absurd rfl hrun
  | cons a as => rfl

theorem parseCommandChars_structured (w d rest : List Char) (hw : w ≠ [])
    (hw2 : ∀ c ∈ w, isWordChar c = true) (hd : d ≠ [])
    (hd2 : ∀ c ∈ d, c.isDigit = true) :
    parseCommandChars ("analyze twitter account ".toList ++ w
        ++ " get ".toList ++ d ++ " post".toList ++ rest) = some (w, d) := by
  have a1 : "analyze twitter account ".toList ++ w ++ " get ".toList ++ d
        ++ " post".toList ++ rest
      = "analyze twitter account ".toList
        ++ (w ++ (' ' :: ("get ".toList
        ++ (d ++ (' ' :: ("post".toList ++ rest)))))) := by
    simp [List.append_assoc]
  have e1 := chomp_append "analyze twitter account ".toList
    (w ++ (' ' :: ("get ".toList ++ (d ++ (' ' :: ("post".toList ++ rest))))))
  have e2 := grabRun_append isWordChar w ' '
    ("get ".toList ++ (d ++ (' ' :: ("post".toList ++ rest))))
    hw hw2 (by decide)
  have e3 : chomp " get ".toList
      (' ' :: ("get ".toList ++ (d ++ (' ' :: ("post".toList ++ rest)))))
      = some (d ++ (' ' :: ("post".toList ++ rest))) :=
    chomp_append " get ".toList (d ++ (' ' :: ("post".toList ++ rest)))
  have e4 := grabRun_append Char.isDigit d ' ' ("post".toList ++ rest)
    hd hd2 (by decide)
  have e5 : chomp " post".toList (' ' :: ("post".toList ++ rest)) = some rest :=
    chomp_append " post".toList rest
  rw [a1]
  simp only [parseCommandChars, e1, e2, e3, e4, e5]

/-- Claim C9: the command pattern is anchored only at the start: any
command that begins with the literal prefix, a nonempty word-character
run, `" get "`, a nonempty digit run and `" post"` is accepted whatever
text follows, with the word run as the identifier and the digit run as the
count. -/
theorem C9_anchored_only_at_start (u d tail : String) (hu : u.toList ≠ [])
    (hu2 : ∀ c ∈ u.toList, isWordChar c = true) (hd : d.toList ≠ [])
    (hd2 : ∀ c ∈ d.toList, c.isDigit = true) :
    parseCommand ("analyze twitter account " ++ u ++ " get " ++ d
        ++ " post" ++ tail)
      = some (u, natOfDigits d.toList) := by
  unfold parseCommand
  have hlist : ("analyze twitter account " ++ u ++ " get " ++ d ++ " post"
        ++ tail).toList
      = "analyze twitter account ".toList ++ u.toList ++ " get ".toList
        ++ d.toList ++ " post".toList ++ tail.toList := by
    simp [string_toList_append]
  rw [hlist,
    parseCommandChars_structured u.toList d.toList tail.toList hu hu2 hd hd2]
  rfl

/-- Witness for C9 on the claim example: the trailing junk after
`"3 posts"` is ignored and the command is accepted as (`"bob"`, 3). -/
theorem C9_anchored_only_at_start_witness :
    parseCommand "analyze twitter account bob get 3 posts and more junk"
      = some ("bob", 3) :=
  C9_anchored_only_at_start "bob" "3" "s and more junk"
    (by decide) (by decide) (by decide) (by decide)

theorem processPosts_take_isPrefix (l : List PostElem) (m idx : Nat)
    (time : String) :
    (processPosts (l.take m) idx time).1 <+: (processPosts l idx time).1 ∧
    (processPosts (l.take m) idx time).2 <+: (processPosts l idx time).2 := by
  induction l generalizing m idx with
  | nil => refine ⟨?_, ?_⟩ <;> simp [processPosts]
  | cons p rest ih =>
    cases m with
    | zero => exact ⟨List.nil_prefix, List.nil_prefix⟩
    | succ m =>
      have hih := ih m (idx + 1)
      show (processPosts (p :: rest.take m) idx time).1 <+: _ ∧
        (processPosts (p :: rest.take m) idx time).2 <+: _
      unfold processPosts
      cases h : processPost p idx time with
      | some pr =>
        simp only [h]
        exact ⟨List.cons_prefix_cons.mpr ⟨rfl, hih.1⟩, hih.2⟩
      | none =>
        simp only [h]
        exact ⟨hih.1, List.cons_prefix_cons.mpr ⟨rfl, hih.2⟩⟩

/-- Claim C10: an unexpected fault caught by the top-level handler does not
empty the result.  A fault while processing the i-th post leaves the
records and failure messages of the first i - 1 attempted elements in
place — an initial segment of what the fault-free run would produce — with
the single runtime-error message appended, and `scraped_posts` keeps the
value set before the loop; a fault during scrolling or during element
enumeration leaves the empty accumulations with the runtime-error message
appended. -/
theorem C10_partial_results_retained (username : String) (postCount : Nat)
    (nav : NavWorld) (page : PageModel) (posts : List PostElem)
    (time : String) (i : Nat) (msg : String)
    (hnav : navigateToProfile nav = none) :
    ((scrapeProfile username postCount
        ⟨nav, page, posts, time, .duringPost i msg⟩).1 =
      ⟨username, postCount, (posts.take postCount).length,
        (processPosts ((posts.take postCount).take (i - 1)) 1 time).1,
        (processPosts ((posts.take postCount).take (i - 1)) 1 time).2
          ++ [runtimeMsg msg]⟩) ∧
    (processPosts ((posts.take postCount).take (i - 1)) 1 time).1 <+:
      (processPosts (posts.take postCount) 1 time).1 ∧
    ((scrapeProfile username postCount
        ⟨nav, page, posts, time, .duringScroll msg⟩).1 =
      ⟨username, postCount, 0, [], [runtimeMsg msg]⟩) ∧
    ((scrapeProfile username postCount
        ⟨nav, page, posts, time, .duringQuery msg⟩).1 =
      ⟨username, postCount, 0, [], [runtimeMsg msg]⟩) := by
  refine ⟨?_,
    (processPosts_take_isPrefix (posts.take postCount) (i - 1) 1 time).1,
    ?_, ?_⟩ <;>
  simp only [scrapeProfile, hnav]

/-- Witness for C10: two elements rendered, three requested, fault while
processing the second post: the first record is retained, the single
runtime-error message is appended, and the achieved count keeps the value
2 set before the loop. -/
theorem C10_partial_results_retained_witness :
    (scrapeProfile "alice" 3
        ⟨⟨.success, none, .success⟩, ⟨fun _ => 0, fun _ => 100⟩,
          [⟨some "hi", some "1", some "2", some "3", false⟩,
            ⟨some "yo", some "4", some "5", some "6", false⟩],
          "t0", .duringPost 2 "boom"⟩).1 =
      ⟨"alice", 3, 2, [⟨1, "hi", "1", "2", "3", "t0"⟩],
        ["Runtime error: boom"]⟩ := by
  have h := C10_partial_results_retained "alice" 3 ⟨.success, none, .success⟩
    ⟨fun _ => 0, fun _ => 100⟩
    [⟨some "hi", some "1", some "2", some "3", false⟩,
      ⟨some "yo", some "4", some "5", some "6", false⟩]
    "t0" 2 "boom" rfl
  rw [h.1]
  rfl

end Scraper
